import Mathlib

/-!
Shallow embedding of `library_of_woko/app.py` (the persona chatbot with a
book store, statistics engine, TTL cache, prompt composer and tool-dispatch
loop), together with theorems settling the frozen claims about it.

Conventions:
* Python `None` becomes `Option.none`; a raised exception that crosses a
  function boundary becomes an `Except.error`.
* The PostgreSQL connection/query is a parameter `db : Except DbError ...`
  holding either the table rows (reads succeed) or a connectivity/query
  error.  SQL aggregate semantics (COUNT ... FILTER, PERCENTILE_CONT,
  EXTRACT(YEAR ...), date subtraction) are embedded as Lean functions over
  the rows.
* Python `datetime.date` values become `PyDate` (calendar triple); date
  subtraction uses the standard days-from-civil day number, so differences
  agree with Python/PostgreSQL date arithmetic.
-/

namespace LibraryOfWoko

/-- Calendar date, mirroring Python `datetime.date` / SQL `date`. -/
structure PyDate where
  year : Int
  month : Int
  day : Int
deriving DecidableEq, Repr

/-- Day number of a civil date (days since 1970-01-01, standard
days-from-civil algorithm with floored division); `date` subtraction in
Python and PostgreSQL returns exactly the difference of these numbers. -/
def dayNumber (dt : PyDate) : Int :=
  let y : Int := if dt.month ≤ 2 then dt.year - 1 else dt.year
  let era : Int := Int.fdiv y 400
  let yoe : Int := y - era * 400
  let mp : Int := Int.emod (dt.month + 9) 12
  let doy : Int := Int.fdiv (153 * mp + 2) 5 + dt.day - 1
  let doe : Int := yoe * 365 + Int.fdiv yoe 4 - Int.fdiv yoe 100 + doy
  era * 146097 + doe - 719468

/-- Left-pad a numeral with zeros, for `str(datetime.date)` rendering. -/
def padNum (width : Nat) (n : Int) : String :=
  let s := toString n
  if s.length < width then String.mk (List.replicate (width - s.length) '0') ++ s
  else s

/-- Python `str(d)` for a `datetime.date`: ISO `YYYY-MM-DD`. -/
def pyDateStr (d : PyDate) : String :=
  padNum 4 d.year ++ "-" ++ padNum 2 d.month ++ "-" ++ padNum 2 d.day

/-- Python `f"{x}"` for an optional date: `str(None)` is `"None"`. -/
def pyOptDateStr : Option PyDate → String
  | none => "None"
  | some d => pyDateStr d

/-- Value of the `shortstory` position of a fetched row as the Python code
sees it: either a genuine boolean (psycopg decodes PostgreSQL `boolean` to
Python `bool`) or a raw string such as `'f'` (the case the source's
comparison `shortstory == 'f'` at app.py:97 was written for).  Python
equality between a `bool` and a `str` is always `False`, which the
`DecidableEq` on this sum type reproduces: `pyBool b = pyStr s` never
holds. -/
inductive PyShortStory where
  | pyBool (b : Bool)
  | pyStr (s : String)
deriving DecidableEq, Repr

/-- Rendering of the short-story flag at app.py:97:
`'No' if shortstory == 'f' else 'Yes'`. -/
def shortStoryYesNo (v : PyShortStory) : String :=
  if v = PyShortStory.pyStr "f" then "No" else "Yes"

/-- One row as returned by `get_books` and consumed by
`create_ai_prompt_from_books`; field order follows the selected composite
`(title, author, genre, datecompleted, datestartedreading, shortstory)`
at app.py:40.  In the source each psycopg row is a 1-tuple whose single
element is this composite (`book = book_outer_tuple[0]`, app.py:83); the
embedding flattens that wrapper. -/
structure BookRow where
  title : String
  author : String
  genre : String
  datecompleted : Option PyDate
  datestartedreading : Option PyDate
  shortstory : PyShortStory
deriving DecidableEq, Repr

/-- The five fixed lines of a book block before the short-story line
(app.py:91-96). -/
def bookLinesHead (t a g : String) (dc ds : Option PyDate) : String :=
  "Title: " ++ t ++ "\n" ++
  "Author: " ++ a ++ "\n" ++
  "Genre: " ++ g ++ "\n" ++
  "Date Started Reading: " ++ pyOptDateStr ds ++ "\n" ++
  "Date Completed: " ++ pyOptDateStr dc ++ "\n"

/-- One formatted block per book, the f-string `book_string` of
app.py:91-98. -/
def formatBook (b : BookRow) : String :=
  bookLinesHead b.title b.author b.genre b.datecompleted b.datestartedreading ++
  "Short Story: " ++ shortStoryYesNo b.shortstory ++ "\n"

/-- Python `"---" * n`. -/
def tripleDash (n : Nat) : String :=
  String.join (List.replicate n "---")

/-- Embedding of `create_ai_prompt_from_books` (app.py:60-104).  The
source accumulates the formatted blocks in a list through a `for` loop and
joins them; the loop is a left fold appending one block per record. -/
def createAiPromptFromBooks (booksData : List BookRow) : String :=
  if booksData.isEmpty then "No book data available in the library."
  else
    let formattedBooks := booksData.foldl (fun acc b => acc ++ [formatBook b]) []
    "\n" ++ tripleDash 15 ++ " All Books in Library " ++ tripleDash 15 ++ "\n" ++
    String.intercalate "\n" formattedBooks ++ "\n" ++ tripleDash 40 ++ "\n"

/-- Floor of a rational, computed on the normalized numerator/denominator
(kernel-computable). -/
def ratFloor (q : Rat) : Int :=
  Int.fdiv q.num q.den

/-- Python `round()` on a real value: round half to even. -/
def pyRound (q : Rat) : Int :=
  let f := ratFloor q
  let r := q - (f : Rat)
  if r < 1/2 then f
  else if 1/2 < r then f + 1
  else if Int.emod f 2 = 0 then f else f + 1

/-- PostgreSQL `PERCENTILE_CONT(0.5) WITHIN GROUP (ORDER BY x)`: the
interpolated 50th percentile of the multiset `xs`; `NULL` (none) when the
qualifying set is empty.  With the sorted values `v_0 .. v_(n-1)`, the
result is `v_i + frac * (v_(i+1) - v_i)` where `i + frac = (n-1)/2`. -/
def percentileCont (xs : List Int) : Option Rat :=
  let sorted := List.insertionSort (· ≤ ·) xs
  if sorted.isEmpty then none
  else
    let n := sorted.length
    let rank : Rat := ((n : Rat) - 1) / 2
    let i : Nat := (n - 1) / 2
    let lo : Rat := (sorted.getD i 0 : Int)
    let hi : Rat := (sorted.getD (i + 1) (sorted.getD i 0) : Int)
    some (lo + (rank - (i : Rat)) * (hi - lo))

/-- Error message of a `psycopg.Error` raised by connecting or querying. -/
abbrev DbError := String

/-- One row of the `books` table as the statistics query observes it
(`get_stats` touches only these columns; in the table `shortstory` is a
genuine SQL boolean). -/
structure DbBook where
  datestartedreading : Option PyDate
  datecompleted : Option PyDate
  shortstory : Bool
deriving DecidableEq, Repr

/-- One cell of the aggregate result row: `COUNT` yields a bigint,
`PERCENTILE_CONT` a double precision value or SQL `NULL`. -/
inductive SqlVal where
  | num (n : Int)
  | real (q : Rat)
  | null
deriving DecidableEq, Repr

/-- One value of the dictionary `get_stats` returns: a count, a formatted
duration string, or Python `None`. -/
inductive StatOut where
  | count (n : Int)
  | text (s : String)
  | null
deriving DecidableEq, Repr

/-- SQL `COUNT(id) FILTER (WHERE p)` over the table rows (`id` is the
primary key, never null, so each qualifying row counts once). -/
def countFilter (p : DbBook → Bool) (rows : List DbBook) : SqlVal :=
  SqlVal.num (rows.countP p)

/-- Durations `(datecompleted - datestartedreading)` in days of the rows
satisfying `datestartedreading IS NOT NULL AND datecompleted IS NOT NULL
AND extra`, in table order. -/
def durationsOf (extra : DbBook → Bool) (rows : List DbBook) : List Int :=
  rows.filterMap fun r =>
    match r.datestartedreading, r.datecompleted with
    | some s, some c => if extra r then some (dayNumber c - dayNumber s) else none
    | _, _ => none

/-- A nullable double-precision cell. -/
def sqlOfOpt : Option Rat → SqlVal
  | none => SqlVal.null
  | some q => SqlVal.real q

/-- SQL `PERCENTILE_CONT(0.5) WITHIN GROUP (ORDER BY (datecompleted -
datestartedreading)) FILTER (WHERE datestartedreading IS NOT NULL AND
datecompleted IS NOT NULL AND extra)` over the table rows. -/
def medianDurationFilter (extra : DbBook → Bool) (rows : List DbBook) : SqlVal :=
  sqlOfOpt (percentileCont (durationsOf extra rows))

/-- Decision of `EXTRACT(YEAR FROM datecompleted) = current_year` for a
row known to have `datecompleted` set; rows with `NULL` dates fail the
comparison. -/
def completedInYear (year : Int) (r : DbBook) : Bool :=
  match r.datecompleted with
  | some c => c.year = year
  | none => false

/-- The `all_possible_stats` table of app.py:130-142: stat name to the
aggregate expression over the table, in the dictionary's order.  The
`current_year` that the source interpolates into the SQL strings is the
`year` parameter. -/
def allPossibleStats (year : Int) : List (String × (List DbBook → SqlVal)) :=
  [ ("in_progress",
      countFilter fun r => r.datestartedreading.isSome && r.datecompleted.isNone),
    ("completed_books",
      countFilter fun r => r.datecompleted.isSome && !r.shortstory),
    ("completed_short_stories",
      countFilter fun r => r.datecompleted.isSome && r.shortstory),
    ("books_this_year",
      countFilter fun r => r.datecompleted.isSome && completedInYear year r && !r.shortstory),
    ("short_stories_this_year",
      countFilter fun r => r.datecompleted.isSome && completedInYear year r && r.shortstory),
    ("total_books",
      countFilter fun r => !r.shortstory),
    ("total_short_stories",
      countFilter fun r => r.shortstory),
    ("total_all",
      countFilter fun _ => true),
    ("median_completion_days_all",
      medianDurationFilter fun _ => true),
    ("median_completion_days_novels",
      medianDurationFilter fun r => !r.shortstory),
    ("median_completion_days_this_year",
      medianDurationFilter fun r => completedInYear year r && !r.shortstory) ]

/-- Keys of `all_possible_stats`; membership is the source's
`stat in all_possible_stats` test (app.py:156). -/
def allPossibleStatNames : List String :=
  [ "in_progress", "completed_books", "completed_short_stories",
    "books_this_year", "short_stories_this_year", "total_books",
    "total_short_stories", "total_all", "median_completion_days_all",
    "median_completion_days_novels", "median_completion_days_this_year" ]

/-- Default selection used when no specific stats are requested
(app.py:146-153); 9 of the 11 possible stats. -/
def defaultStatNames : List String :=
  [ "in_progress", "completed_books", "completed_short_stories",
    "books_this_year", "short_stories_this_year", "total_all",
    "median_completion_days_all", "median_completion_days_novels",
    "median_completion_days_this_year" ]

/-- Selection step of app.py:145-156: a `None` or empty request
(Python-falsy) selects the default set, otherwise the request is filtered
against the known names. -/
def selectedStatNames (requested : Option (List String)) : List String :=
  match requested with
  | none => defaultStatNames
  | some l => if l = [] then defaultStatNames else l.filter fun s => decide (s ∈ allPossibleStatNames)

/-- True when `requested_stats` is Python-truthy (a non-empty list), i.e.
when the validation/`return {}` branch of app.py:154-158 is active. -/
def requestedTruthy : Option (List String) → Bool
  | none => false
  | some l => !l.isEmpty

/-- Post-processing of app.py:178-186, which rewrites exactly the three
median keys: a `NULL` median stays `None`; a numeric median becomes
`f"{round(v)} day(s)"`.  Those keys are exactly the statistics whose cell
is `real`/`null` (counts are always `num`), so dispatching on the cell
shape reproduces the source's key-driven loop. -/
def sqlValToStatOut : SqlVal → StatOut
  | SqlVal.num n => StatOut.count n
  | SqlVal.null => StatOut.null
  | SqlVal.real q =>
      let days := pyRound q
      StatOut.text (toString days ++ (if days = 1 then " day" else " days"))

/-- One output entry for a selected stat name: evaluate its aggregate
expression `all_possible_stats[stat_name]` over the rows and post-process.
The `getD` default is the unknown-name case, unreachable because every
selected name has been filtered against the table's keys. -/
def buildStat (year : Int) (rows : List DbBook) (n : String) : String × StatOut :=
  (n, sqlValToStatOut ((((allPossibleStats year).lookup n).getD (fun _ => SqlVal.null)) rows))

/-- Embedding of `get_stats` (app.py:106-189).  The connection and the
aggregate query are the `db` parameter; since the source wraps nothing in
`try`, a `psycopg` error propagates (`Except.error`).  On success the
single aggregate result row always exists and is non-empty, so the
`if result:` guard of app.py:174 takes the true branch. -/
def getStats (db : Except DbError (List DbBook)) (year : Int)
    (requested : Option (List String)) : Except DbError (List (String × StatOut)) :=
  match db with
  | Except.error e => Except.error e
  | Except.ok rows =>
    let sel := selectedStatNames requested
    if requestedTruthy requested && sel.isEmpty then Except.ok []
    else Except.ok (sel.map (buildStat year rows))

/-- Embedding of `get_books` (app.py:32-58): the query result (already
ordered by the database) passes through; a `psycopg.Error` is caught,
printed (`Database error: ...`, the second component) and turned into the
empty list. -/
def getBooks (db : Except DbError (List BookRow)) : List BookRow × List String :=
  match db with
  | Except.error e => ([], ["Database error: " ++ e])
  | Except.ok rows => (rows, [])

/-- Python `str.title()` restricted to its behaviour on ASCII text: the
first letter of each alphabetic run is uppercased, the rest lowercased. -/
def pyTitle (s : String) : String :=
  (s.toList.foldl
    (fun (acc : String × Bool) c =>
      if c.isAlpha then (acc.1.push (if acc.2 then c.toLower else c.toUpper), true)
      else (acc.1.push c, false))
    ("", false)).1

/-- The `stat_labels` table of app.py:207-219. -/
def statLabels : List (String × String) :=
  [ ("in_progress", "Books currently in progress"),
    ("completed_books", "Total books completed"),
    ("completed_short_stories", "Total short stories completed"),
    ("books_this_year", "Books completed this year"),
    ("short_stories_this_year", "Short stories completed this year"),
    ("total_books", "Total books ever added"),
    ("total_short_stories", "Total short stories ever added"),
    ("total_all", "Total reading items ever added"),
    ("median_completion_days_all", "Median completion time for all items"),
    ("median_completion_days_novels", "Median completion time for novels"),
    ("median_completion_days_this_year", "Median completion time this year for novels") ]

/-- Embedding of `create_ai_prompt_from_stats` (app.py:191-230). -/
def createAiPromptFromStats (statsData : List (String × StatOut)) : String :=
  if statsData.isEmpty then
    "No reading statistics available or no valid stats were requested."
  else
    let body := statsData.foldl
      (fun acc p =>
        let label := (statLabels.lookup p.1).getD (pyTitle (p.1.replace "_" " "))
        match p.2 with
        | StatOut.null => acc ++ label ++ ": N/A (not enough data)\n"
        | StatOut.count n => acc ++ label ++ ": " ++ toString n ++ "\n"
        | StatOut.text s => acc ++ label ++ ": " ++ s ++ "\n")
      ""
    "--- Reading Statistics ---\n" ++ body ++ "--------------------------\n"

/-- Cache fields of `Me.__init__` relevant to the stats cache
(app.py:329-330): the cached dictionary and the time of its fetch, both
initially `None`.  Times are in whole seconds. -/
structure CacheState where
  cachedStats : Option (List (String × StatOut))
  timestamp : Option Int
deriving DecidableEq, Repr

/-- The `_cache_duration_seconds` field (app.py:331). -/
def statsCacheTtl : Int := 300

/-- Python truthiness test `not self._cached_stats` (app.py:338): true for
`None` and for an empty dictionary. -/
def cachedStatsFalsy : Option (List (String × StatOut)) → Bool
  | none => true
  | some m => m.isEmpty

/-- Staleness test `(current_time - self._stats_cache_timestamp)
.total_seconds() > self._cache_duration_seconds` (app.py:339).  An unset
timestamp only occurs together with an unset cache, where the truthiness
test already forces a refresh before the subtraction is reached. -/
def cacheStale (timestamp : Option Int) (now : Int) : Bool :=
  match timestamp with
  | none => true
  | some ts => decide (now - ts > statsCacheTtl)

/-- Embedding of `Me._get_cached_stats` (app.py:336-343).  A refresh calls
`get_stats()` with no arguments (default selection); since `get_stats` can
raise, the result is an `Except`.  Returns the dictionary handed to the
caller, the successor cache state, and whether the underlying database
fetch ran. -/
def getCachedStats (st : CacheState) (now : Int) (forceRefresh : Bool)
    (db : Except DbError (List DbBook)) (year : Int) :
    Except DbError (List (String × StatOut) × CacheState × Bool) :=
  if forceRefresh || cachedStatsFalsy st.cachedStats || cacheStale st.timestamp now then
    match getStats db year none with
    | Except.error e => Except.error e
    | Except.ok v => Except.ok (v, ⟨some v, some now⟩, true)
  else
    Except.ok (st.cachedStats.getD [], st, false)

/-- Embedding of `Me.get_stats_tool` (app.py:377-379): reads the stats
through the cache and renders them; the `requested_stats` parameter is
accepted and never used. -/
def getStatsTool (st : CacheState) (now : Int) (db : Except DbError (List DbBook))
    (year : Int) (requestedStats : Option (List String)) :
    Except DbError (String × CacheState) :=
  match getCachedStats st now false db year with
  | Except.error e => Except.error e
  | Except.ok (stats, st2, _) => Except.ok (createAiPromptFromStats stats, st2)

/-- Callable attributes of a `Me` instance, i.e. the names for which
`hasattr(self, tool_name) and callable(getattr(self, tool_name))` holds
(app.py:365): the eight methods the class defines, together with the
callable attributes every object inherits — the dunder slot wrappers and
builtin methods of `object`, plus `__class__` (the class `Me`, which is
callable).  The list is that of modern CPython (`object.__getstate__`
exists since Python 3.11, which this project's dependency set requires).
The non-callable attributes — the instance fields set in `__init__`
(`openai`, `name`, `linkedin`, `summary` and the five cache fields) and
the inherited `__dict__`, `__doc__`, `__module__`, `__weakref__` — fail
the `callable` test and fall through to the globals branch like unknown
names. -/
def meMethodNames : List String :=
  [ "__init__", "_get_cached_stats", "_get_cached_books", "handle_tool_call",
    "get_stats_tool", "get_books_tool", "system_prompt", "chat",
    "__class__", "__delattr__", "__dir__", "__eq__", "__format__", "__ge__",
    "__getattribute__", "__getstate__", "__gt__", "__hash__",
    "__init_subclass__", "__le__", "__lt__", "__ne__", "__new__",
    "__reduce__", "__reduce_ex__", "__repr__", "__setattr__", "__sizeof__",
    "__str__", "__subclasshook__" ]

/-- Module-level globals of `app.py` whose value is Python-truthy, i.e.
the names for which `globals().get(tool_name)` (app.py:370) returns a
truthy value that then gets called: the imports and the objects defined in
the file, the instance `me` created by the main block (the module runs as
a script, and every chat turn executes after that block), and the truthy
module dunders of a script module — `__name__` (`"__main__"`), `__file__`
(the script path), `__builtins__` (the builtins module) and `__loader__`
(the source file loader).  Omitted because they are Python-falsy in that
mode and therefore yield the empty fallback: `__doc__` (the module has no
docstring, so `None`), `__package__` (the empty string) and `__spec__`
(`None` for a script).  The four connection strings `dbuser`/`dbpassword`/
`dbhost`/`dbname` are also omitted: their truthiness depends on the
process environment and no claim touches them.  Note that `add_book` is
NOT here — the module never defines it. -/
def moduleGlobalNames : List String :=
  [ "load_dotenv", "P", "OpenAI", "os", "gr", "psycopg", "PdfReader", "json",
    "BaseModel", "Field", "ValidationError", "date", "timedelta", "datetime",
    "Optional", "AddBookInput", "get_books", "create_ai_prompt_from_books",
    "get_stats", "create_ai_prompt_from_stats", "add_book_json",
    "get_stats_tool_json", "get_books_tool_json", "tools", "Me", "me",
    "__name__", "__file__", "__builtins__", "__loader__" ]

/-- The three tools advertised to the model in the `tools` schema
(app.py:308-312). -/
def recognizedToolNames : List String :=
  ["add_book", "get_stats_tool", "get_books_tool"]

/-- Where `handle_tool_call` routes one requested tool name: to a callable
attribute of the persona object, to a truthy module global — which the
code calls whether or not it is callable, so a non-callable value such as
the string `__name__` makes the call raise `TypeError` — or to the empty
fallback `result = {}`. -/
inductive ToolDispatch where
  | method (m : String)
  | globalTruthy (g : String)
  | empty
deriving DecidableEq, Repr

/-- Dispatch of `Me.handle_tool_call` (app.py:363-371): an instance method
of the matching name wins; otherwise a truthy module global of that name
is fetched and called; otherwise `result = {}`. -/
def toolDispatch (toolName : String) : ToolDispatch :=
  if toolName ∈ meMethodNames then ToolDispatch.method toolName
  else if toolName ∈ moduleGlobalNames then ToolDispatch.globalTruthy toolName
  else ToolDispatch.empty

/-- One tool-call request from the model service: function name, JSON
argument text and call id. -/
structure ToolCallReq where
  name : String
  arguments : String
  id : String
deriving DecidableEq, Repr

/-- Serialized content of the tool-result message for one call
(app.py:374): `json.dumps({})` for the empty fallback result.  The payload
of an invoked method or called global depends on database and cache state
(and the call raises for a non-callable global), which the dispatch loop
never inspects; the embedding records only that a result message with its
call id is appended. -/
def toolResultContent (c : ToolCallReq) : String :=
  match toolDispatch c.name with
  | ToolDispatch.empty => "\x7b\x7d"
  | ToolDispatch.method _ => "<method result>"
  | ToolDispatch.globalTruthy _ => "<global result>"

/-- One message of the conversation transcript. -/
inductive ChatMsg where
  | system (content : String)
  | user (content : String)
  | assistant (content : String)
  | assistantToolCalls (calls : List ToolCallReq)
  | toolResult (content : String) (toolCallId : String)
deriving DecidableEq, Repr

/-- One model-service response: the finish reason of its first choice,
the requested tool calls and the text content. -/
structure ChatResponse where
  finishReason : String
  toolCalls : List ToolCallReq
  content : String

/-- Loop state of `Me.chat` (app.py:421-435): the growing message list,
the `done` flag, and the final text once done. -/
structure ChatState where
  messages : List ChatMsg
  done : Bool
  result : Option String

/-- Tool-result messages appended by `handle_tool_call` for one batch of
requested calls: one per call, in order (app.py:356-375). -/
def handleToolCallMsgs (calls : List ToolCallReq) : List ChatMsg :=
  calls.map fun c => ChatMsg.toolResult (toolResultContent c) c.id

/-- One iteration of the `while not done` loop of `Me.chat`
(app.py:425-434): ask the model service (`oracle`); on finish reason
`"tool_calls"` execute the calls and extend the transcript; on anything
else set `done` and record the reply text.  A finished state is a fixed
point. -/
def chatStep (oracle : List ChatMsg → ChatResponse) (st : ChatState) : ChatState :=
  if st.done then st
  else
    let resp := oracle st.messages
    if resp.finishReason = "tool_calls" then
      { st with messages :=
          st.messages ++ [ChatMsg.assistantToolCalls resp.toolCalls] ++
          handleToolCallMsgs resp.toolCalls }
    else
      { st with done := true, result := some resp.content }

/-- Initial loop state of one chat turn: `[system] ++ history ++ [user]`
(app.py:422). -/
def chatInit (systemPrompt : String) (history : List ChatMsg) (message : String) : ChatState :=
  ⟨[ChatMsg.system systemPrompt] ++ history ++ [ChatMsg.user message], false, none⟩

/-- A model service that answers every request with another tool-call
round (and no text). -/
def alwaysToolOracle : List ChatMsg → ChatResponse :=
  fun _ => ⟨"tool_calls", [], ""⟩

/-- A model service that immediately returns a terminal text reply. -/
def stopOracle : List ChatMsg → ChatResponse :=
  fun _ => ⟨"stop", [], "Greetings, mortal."⟩

-- Decidable equality of fetch results, used to evaluate the embedding on
-- concrete inputs.
deriving instance DecidableEq for Except

/-- Concrete book record used to instantiate rendering theorems. -/
def sampleBook : BookRow :=
  ⟨"Dracula", "Bram Stoker", "Gothic", none, none, PyShortStory.pyBool false⟩

/-- Three completed books read in 2, 4 and 6 days, the `[2,4,6]`-durations
table of the median claim. -/
def c7Rows : List DbBook :=
  [ ⟨some ⟨2025, 3, 1⟩, some ⟨2025, 3, 3⟩, false⟩,
    ⟨some ⟨2025, 3, 1⟩, some ⟨2025, 3, 5⟩, false⟩,
    ⟨some ⟨2025, 3, 1⟩, some ⟨2025, 3, 7⟩, false⟩ ]

/-- Value of `get_stats()` (default selection) over an empty table: all
counts zero and all three medians `None`; in particular a NON-empty
(Python-truthy) dictionary of 9 entries. -/
def emptyTableStats : List (String × StatOut) :=
  [ ("in_progress", StatOut.count 0),
    ("completed_books", StatOut.count 0),
    ("completed_short_stories", StatOut.count 0),
    ("books_this_year", StatOut.count 0),
    ("short_stories_this_year", StatOut.count 0),
    ("total_all", StatOut.count 0),
    ("median_completion_days_all", StatOut.null),
    ("median_completion_days_novels", StatOut.null),
    ("median_completion_days_this_year", StatOut.null) ]

/-- A left fold that appends one formatted element per record is the map
over the records, in order. -/
lemma foldl_append_singleton_eq_map {α β : Type} (f : α → β) :
    ∀ (l : List α) (acc : List β),
      l.foldl (fun a b => a ++ [f b]) acc = acc ++ l.map f := by
  intro l
  induction l with
  | nil => intro acc; simp
  | cons h t ih => intro acc; simp [ih, List.append_assoc]

/-- The interpolated median of the durations 2, 4 and 6 days is 4 days. -/
lemma percentileCont_246 : percentileCont [2, 4, 6] = some 4 := by
  norm_num [percentileCont, List.insertionSort, List.orderedInsert]

/-- Extracted durations of the `[2,4,6]` table. -/
lemma durationsOf_c7Rows : durationsOf (fun _ => true) c7Rows = [2, 4, 6] := by
  decide

/-- The unfiltered median aggregate over the `[2,4,6]` table. -/
lemma medianAll_c7Rows : medianDurationFilter (fun _ => true) c7Rows = SqlVal.real 4 := by
  rw [medianDurationFilter, durationsOf_c7Rows, percentileCont_246]
  rfl

/-- Post-processing of a 4-day median for display. -/
lemma sqlValToStatOut_four : sqlValToStatOut (SqlVal.real 4) = StatOut.text "4 days" := by
  norm_num [sqlValToStatOut, pyRound, ratFloor]
  rfl

/-- Lookup of the unfiltered median aggregate in `all_possible_stats`. -/
lemma lookup_median_all (year : Int) :
    (allPossibleStats year).lookup "median_completion_days_all" =
      some (medianDurationFilter fun _ => true) := by
  simp [allPossibleStats, List.lookup]

/-- The `while not done` loop of `chat` driven by a model service that
always requests tool calls never sets `done`. -/
lemma alwaysTool_never_done :
    ∀ (n : Nat) (st : ChatState), st.done = false →
      ((chatStep alwaysToolOracle)^[n] st).done = false := by
  intro n
  induction n with
  | zero => intro st h; simpa using h
  | succ k ih =>
    intro st h
    rw [Function.iterate_succ_apply]
    exact ih _ (by simp [chatStep, alwaysToolOracle, h])

/-- C1 (code evaluation at the failing input): the source never defines a
function `add_book`, so a tool call named `add_book` — here with
title "Dracula", author "Bram Stoker", genre "Gothic", no dates and
short_story false — matches no method of the persona object and no module
global; `handle_tool_call` dispatches it to the empty fallback and returns
the serialized empty object, inserting nothing and naming no missing
field. -/
theorem C1_add_book_dispatches_to_empty :
    toolDispatch "add_book" = ToolDispatch.empty ∧
    toolResultContent
      ⟨"add_book",
        "\x7b\"title\": \"Dracula\", \"author\": \"Bram Stoker\", \"genre\": \"Gothic\", \"short_story\": false\x7d",
        "call_1"⟩ = "\x7b\x7d" := by
  decide

/-- C2 (counterexample): a connectivity error during `get_stats` is not
converted to an empty mapping — it propagates past the store boundary as
an exception, because `get_stats` wraps nothing in `try`. -/
theorem C2_counterexample_get_stats_propagates :
    getStats (Except.error "connection refused") 2025 none =
        Except.error "connection refused" ∧
    getStats (Except.error "connection refused") 2025 none ≠
        Except.ok [] := by
  decide

/-- C2 (amended): on any storage error, `get_books` logs the error and
returns the empty sequence, while `get_stats` propagates the exception
unchanged. -/
theorem C2_read_error_behaviour :
    ∀ (e : DbError) (year : Int) (requested : Option (List String)),
      getBooks (Except.error e) = ([], ["Database error: " ++ e]) ∧
      getStats (Except.error e) year requested = Except.error e := by
  intro e year requested
  exact ⟨rfl, rfl⟩

/-- C3 (counterexample): the cache is refreshed at time 0 (empty table);
two cached reads at times 250 and 350 differ by 100 ≤ 300 seconds, yet
the second read invokes the underlying database fetch again, because the
TTL window is anchored at the cache's fetch timestamp, not at the first of
the two calls. -/
theorem C3_counterexample_window_anchor :
    getCachedStats ⟨none, none⟩ 0 false (Except.ok []) 2025 =
        Except.ok (emptyTableStats, ⟨some emptyTableStats, some 0⟩, true) ∧
    getCachedStats ⟨some emptyTableStats, some 0⟩ 250 false (Except.ok []) 2025 =
        Except.ok (emptyTableStats, ⟨some emptyTableStats, some 0⟩, false) ∧
    ((350 : Int) - 250 ≤ 300) ∧
    getCachedStats ⟨some emptyTableStats, some 0⟩ 350 false (Except.ok []) 2025 =
        Except.ok (emptyTableStats, ⟨some emptyTableStats, some 350⟩, true) := by
  decide

/-- C3 (amended): every cached read with `force_refresh=false` made at
most 300 seconds after the cache's recorded fetch timestamp, while the
cached value is non-empty, returns the identical cached value object
without invoking the underlying database fetch; in particular two such
reads return the same value and neither fetches. -/
theorem C3_cached_reads_within_ttl :
    ∀ (v : List (String × StatOut)) (ts now1 now2 : Int)
      (db1 db2 : Except DbError (List DbBook)) (y1 y2 : Int),
      v ≠ [] → now1 - ts ≤ statsCacheTtl → now2 - ts ≤ statsCacheTtl →
      getCachedStats ⟨some v, some ts⟩ now1 false db1 y1 =
          Except.ok (v, ⟨some v, some ts⟩, false) ∧
      getCachedStats ⟨some v, some ts⟩ now2 false db2 y2 =
          Except.ok (v, ⟨some v, some ts⟩, false) := by
  intro v ts now1 now2 db1 db2 y1 y2 hv h1 h2
  have hf : cachedStatsFalsy (some v) = false := by
    cases v with
    | nil => cases hv rfl
    | cons a t => rfl
  have hs1 : cacheStale (some ts) now1 = false := by
    simp only [cacheStale, decide_eq_false_iff_not, not_lt]
    exact h1
  have hs2 : cacheStale (some ts) now2 = false := by
    simp only [cacheStale, decide_eq_false_iff_not, not_lt]
    exact h2
  constructor <;> simp [getCachedStats, hf, hs1, hs2]

/-- C3 (witness). -/
theorem C3_cached_reads_within_ttl_witness :
    getCachedStats ⟨some [("total_all", StatOut.count 5)], some 0⟩ 100 false
        (Except.ok []) 2025 =
      Except.ok ([("total_all", StatOut.count 5)],
        ⟨some [("total_all", StatOut.count 5)], some 0⟩, false) ∧
    getCachedStats ⟨some [("total_all", StatOut.count 5)], some 0⟩ 200 false
        (Except.ok []) 2025 =
      Except.ok ([("total_all", StatOut.count 5)],
        ⟨some [("total_all", StatOut.count 5)], some 0⟩, false) :=
  C3_cached_reads_within_ttl [("total_all", StatOut.count 5)] 0 100 200
    (Except.ok []) (Except.ok []) 2025 2025 (by decide) (by decide) (by decide)

/-- C4 (counterexample): against a model service that answers every
request with another tool-call round, no number of loop iterations ever
reaches the `done` state — the `while not done` loop of `chat` has no
round bound and does not terminate. -/
theorem C4_counterexample_unbounded_loop :
    ¬ ∃ n : Nat,
      ((chatStep alwaysToolOracle)^[n] (chatInit "" [] "Hello")).done = true := by
  intro h
  obtain ⟨n, hn⟩ := h
  have hfalse := alwaysTool_never_done n (chatInit "" [] "Hello") rfl
  rw [hfalse] at hn
  exact absurd hn (by decide)

/-- C4 (amended): one round of the tool-dispatch loop terminates the turn
exactly when the model service's response has a finish reason other than
`"tool_calls"`; the code imposes no round bound of its own. -/
theorem C4_loop_stops_iff_not_tool_calls :
    ∀ (oracle : List ChatMsg → ChatResponse) (st : ChatState), st.done = false →
      ((chatStep oracle st).done = true ↔
        (oracle st.messages).finishReason ≠ "tool_calls") := by
  intro oracle st h
  by_cases hf : (oracle st.messages).finishReason = "tool_calls"
  · simp [chatStep, h, hf]
  · simp [chatStep, h, hf]

/-- C4 (witness). -/
theorem C4_loop_stops_iff_not_tool_calls_witness :
    (chatStep stopOracle (chatInit "Prompt" [] "Hello")).done = true :=
  (C4_loop_stops_iff_not_tool_calls stopOracle (chatInit "Prompt" [] "Hello")
    rfl).mpr (by decide)

/-- C5 (counterexample): `get_stats` is not one of the three recognized
tool handlers, yet a tool call named `get_stats` is not given the empty
result — the reflection fallback finds the module-level function of that
name and invokes it. -/
theorem C5_counterexample_global_invoked :
    "get_stats" ∉ recognizedToolNames ∧
    toolDispatch "get_stats" ≠ ToolDispatch.empty := by
  decide

/-- C5 (amended): a requested tool name that matches neither a callable
attribute of the persona object (its own methods or the dunders inherited
from `object`, such as `__str__`) nor a truthy module-level global yields
the serialized empty result object and no error; names matching other
callables (the module function `get_stats`, the method `system_prompt`,
the class held by `__class__`) are invoked through reflection instead, and
a truthy non-callable global (such as the string `__name__`) is called and
raises `TypeError`. -/
theorem C5_unknown_name_yields_empty :
    ∀ (s args callId : String), s ∉ meMethodNames → s ∉ moduleGlobalNames →
      toolDispatch s = ToolDispatch.empty ∧
      toolResultContent ⟨s, args, callId⟩ = "\x7b\x7d" := by
  intro s args callId h1 h2
  have hd : toolDispatch s = ToolDispatch.empty := by
    simp [toolDispatch, h1, h2]
  exact ⟨hd, by simp [toolResultContent, hd]⟩

/-- C5 (witness). -/
theorem C5_unknown_name_yields_empty_witness :
    toolDispatch "definitely_unknown_tool" = ToolDispatch.empty ∧
    toolResultContent ⟨"definitely_unknown_tool", "\x7b\x7d", "call_2"⟩ = "\x7b\x7d" :=
  C5_unknown_name_yields_empty "definitely_unknown_tool" "\x7b\x7d" "call_2"
    (by decide) (by decide)

/-- C6: the fixed table of known statistics has 11 entries; a non-empty
request is filtered to the known names, each unknown name being dropped,
and a request consisting only of unknown names yields the empty mapping
rather than an error. -/
theorem C6_unknown_stats_dropped :
    allPossibleStatNames.length = 11 ∧
    ∀ (requested : List String) (rows : List DbBook) (year : Int),
      requested ≠ [] →
      selectedStatNames (some requested) =
          requested.filter (fun s => decide (s ∈ allPossibleStatNames)) ∧
      ((∀ s ∈ requested, s ∉ allPossibleStatNames) →
        getStats (Except.ok rows) year (some requested) = Except.ok []) := by
  constructor
  · rfl
  · intro requested rows year hne
    have hsel : selectedStatNames (some requested) =
        requested.filter (fun s => decide (s ∈ allPossibleStatNames)) := by
      simp [selectedStatNames, hne]
    refine ⟨hsel, fun hall => ?_⟩
    have hnil : requested.filter (fun s => decide (s ∈ allPossibleStatNames)) = [] := by
      rw [List.filter_eq_nil_iff]
      intro a ha
      simpa using hall a ha
    have htru : requestedTruthy (some requested) = true := by
      cases requested with
      | nil => cases hne rfl
      | cons a t => rfl
    simp [getStats, hsel, hnil, htru]

/-- C6 (witness). -/
theorem C6_unknown_stats_dropped_witness :
    getStats (Except.ok ([] : List DbBook)) 2025 (some ["made_up", "also_bogus"]) =
      Except.ok [] :=
  ((C6_unknown_stats_dropped.2 ["made_up", "also_bogus"] [] 2025 (by decide)).2
    (by decide))

/-- C7: the median-completion-duration statistic of an empty qualifying
set is null (an `N/A` value, not zero and not an exception), the median of
the durations [2,4,6] days is 4, and over a table whose three completed
rows took 2, 4 and 6 days the displayed statistic is the rounded "4 days"
while the empty table displays null. -/
theorem C7_median_duration_stats :
    percentileCont [] = none ∧
    percentileCont [2, 4, 6] = some 4 ∧
    getStats (Except.ok c7Rows) 2025 (some ["median_completion_days_all"]) =
        Except.ok [("median_completion_days_all", StatOut.text "4 days")] ∧
    getStats (Except.ok ([] : List DbBook)) 2025 (some ["median_completion_days_all"]) =
        Except.ok [("median_completion_days_all", StatOut.null)] := by
  refine ⟨rfl, percentileCont_246, ?_, by decide⟩
  have hbuild : buildStat 2025 c7Rows "median_completion_days_all" =
      ("median_completion_days_all", StatOut.text "4 days") := by
    simp only [buildStat, lookup_median_all, Option.getD_some]
    rw [medianAll_c7Rows, sqlValToStatOut_four]
  have hsel : selectedStatNames (some ["median_completion_days_all"]) =
      ["median_completion_days_all"] := by decide
  simp [getStats, hsel, requestedTruthy, hbuild]

/-- C8: rendering an empty record list returns the fixed "no data"
sentinel, and rendering any non-empty record list produces the fixed
header and footer around exactly one formatted block per input record,
joined in input order. -/
theorem C8_render_books_blocks :
    createAiPromptFromBooks [] = "No book data available in the library." ∧
    ∀ booksData : List BookRow, booksData ≠ [] →
      createAiPromptFromBooks booksData =
          "\n" ++ tripleDash 15 ++ " All Books in Library " ++ tripleDash 15 ++ "\n" ++
          String.intercalate "\n" (booksData.map formatBook) ++ "\n" ++
          tripleDash 40 ++ "\n" ∧
      (booksData.map formatBook).length = booksData.length := by
  constructor
  · rfl
  · intro booksData hne
    constructor
    · cases booksData with
      | nil => cases hne rfl
      | cons b t => simp [createAiPromptFromBooks, foldl_append_singleton_eq_map]
    · simp

/-- C8 (witness). -/
theorem C8_render_books_blocks_witness :
    createAiPromptFromBooks [sampleBook] =
      "\n" ++ tripleDash 15 ++ " All Books in Library " ++ tripleDash 15 ++ "\n" ++
      String.intercalate "\n" ([sampleBook].map formatBook) ++ "\n" ++
      tripleDash 40 ++ "\n" :=
  (C8_render_books_blocks.2 [sampleBook] (by decide)).1

/-- C9: for any two values of the `requested_stats` argument and the same
cache state, clock, database and year, `get_stats_tool` returns the same
output — the argument has no effect, and what is returned is always the
rendering of the stats read through the cache (which fetches the default
statistics subset). -/
theorem C9_requested_stats_has_no_effect :
    ∀ (st : CacheState) (now : Int) (db : Except DbError (List DbBook)) (year : Int)
      (a b : Option (List String)),
      getStatsTool st now db year a = getStatsTool st now db year b ∧
      getStatsTool st now db year a =
        Except.map (fun p => (createAiPromptFromStats p.1, p.2.1))
          (getCachedStats st now false db year) := by
  intro st now db year a b
  refine ⟨rfl, ?_⟩
  cases h : getCachedStats st now false db year with
  | error e => simp [getStatsTool, Except.map, h]
  | ok p =>
    obtain ⟨stats, st2, flag⟩ := p
    simp [getStatsTool, Except.map, h]

/-- C10: a record whose short-story field is a Python boolean — True or
False alike — renders the line "Short Story: Yes", because `bool == 'f'`
is always false in Python; the rendering is "No" exactly when the field
equals the one-character string 'f'. -/
theorem C10_short_story_yes_unless_f :
    (∀ (t a g : String) (dc ds : Option PyDate) (b : Bool),
        formatBook ⟨t, a, g, dc, ds, PyShortStory.pyBool b⟩ =
          bookLinesHead t a g dc ds ++ "Short Story: " ++ "Yes" ++ "\n") ∧
    (∀ v : PyShortStory, shortStoryYesNo v = "No" ↔ v = PyShortStory.pyStr "f") := by
  constructor
  · intro t a g dc ds b
    cases b <;> rfl
  · intro v
    constructor
    · intro h
      by_cases hv : v = PyShortStory.pyStr "f"
      · exact hv
      · rw [shortStoryYesNo, if_neg hv] at h
        exact absurd h (by decide)
    · intro h
      rw [h]
      rfl

end LibraryOfWoko
